import Mathlib

/-! Shallow embedding of the order controller: checkout orchestration, order
creation and hydration, and receipt generation, over an explicit store state.
Controller code is translated from the sources; collaborator models that are
not part of the sources are modelled from the specification and marked as
such on their doc comments. -/

/-- A catalogue product: identifier and unit price. -/
structure Product where
  id : String
  price : Nat
  deriving DecidableEq, Repr, Inhabited

/-- A cart or order line item: a product together with a quantity. -/
structure OrderItem where
  product : Product
  quantity : Nat
  deriving DecidableEq, Repr, Inhabited

/-- Modelled from the spec: the Cart model (not in the sources) — cart
identifier, owning user and line items. -/
structure Cart where
  id : String
  userId : String
  items : List OrderItem
  deriving DecidableEq, Repr, Inhabited

/-- Modelled from the spec: the cart subtotal (the Cart model is not in the
sources), the sum of price times quantity over the cart lines. -/
def Cart.getSubtotalPrice (c : Cart) : Nat :=
  (c.items.map (fun item => item.product.price * item.quantity)).sum

/-- Lookup of a per-product stock quantity in an association list; an absent
product reads as quantity 0. -/
def stockLookup : List (String × Nat) → String → Nat
  | [], _ => 0
  | e :: rest, pid => if e.1 = pid then e.2 else stockLookup rest pid

/-- Replace the stock quantity of a product in an association list, inserting
it when absent. -/
def stockSet : List (String × Nat) → String → Nat → List (String × Nat)
  | [], pid, q => [(pid, q)]
  | e :: rest, pid, q => if e.1 = pid then (pid, q) :: rest else e :: stockSet rest pid q

/-- Modelled from the spec: the catalogue — per-product available quantity
(the Catalogue model is not in the sources). -/
structure Catalogue where
  stock : List (String × Nat)
  deriving DecidableEq, Repr, Inhabited

/-- Modelled from the spec: getItemQuantity of the catalogue. -/
def Catalogue.getItemQuantity (c : Catalogue) (p : Product) : Nat :=
  stockLookup c.stock p.id

/-- Modelled from the spec: updateProductQuantity of the catalogue controller. -/
def Catalogue.updateProductQuantity (c : Catalogue) (p : Product) (q : Nat) : Catalogue :=
  ⟨stockSet c.stock p.id q⟩

/-- Modelled from the spec: the Shipment model (not in the sources) —
identifier (none until stored), type, fee and optional address. -/
structure Shipment where
  id : Option String
  type : String
  fee : Nat
  address : Option String
  deriving DecidableEq, Repr, Inhabited

/-- Caller-supplied shipment details, every field optional. -/
structure ShipmentDetails where
  type : Option String
  fee : Option Nat
  address : Option String
  deriving DecidableEq, Repr, Inhabited

/-- Modelled from the spec: createShipmentObject of the shipment controller —
builds an unsaved shipment value object from the supplied details. -/
def createShipmentObject (d : ShipmentDetails) : Shipment :=
  { id := none, type := d.type.getD "", fee := d.fee.getD 0, address := d.address }

/-- A payment value object: identifier (none until stored), type, amount,
date, status and the card-specific attributes, mirroring JointPayment. -/
structure PaymentObj where
  id : Option String
  type : String
  amount : Nat
  date : String
  status : String
  cardNumber : Option String
  expiryDate : Option String
  paymentGateway : Option String
  deriving DecidableEq, Repr, Inhabited

/-- Caller-supplied payment details, every field optional. -/
structure PaymentDetails where
  type : Option String
  amount : Option Nat
  date : Option String
  status : Option String
  cardNumber : Option String
  expiryDate : Option String
  paymentGateway : Option String
  deriving DecidableEq, Repr, Inhabited

/-- Modelled from the spec: createPaymentObject of the payment controller —
builds an unsaved payment value object from the supplied details. -/
def createPaymentObject (d : PaymentDetails) : PaymentObj :=
  { id := none, type := d.type.getD "", amount := d.amount.getD 0,
    date := d.date.getD "", status := d.status.getD "Pending",
    cardNumber := d.cardNumber, expiryDate := d.expiryDate,
    paymentGateway := d.paymentGateway }

/-- Modelled from the spec: the Order model (not in the sources). -/
structure Order where
  userId : String
  id : Option String
  orderDate : String
  items : List OrderItem
  payment : Option PaymentObj
  shipment : Option Shipment
  status : String
  cancellation : Bool
  deriving DecidableEq, Repr, Inhabited

/-- Modelled from the spec: the one-argument Order constructor — a fresh
pending order with no items, payment or shipment. -/
def newOrder (userId : String) (now : String) : Order :=
  { userId := userId, id := none, orderDate := now, items := [],
    payment := none, shipment := none, status := "Pending", cancellation := false }

/-- Modelled from the spec: Order.addItem appends a line item. -/
def Order.addItem (o : Order) (p : Product) (q : Nat) : Order :=
  { o with items := o.items ++ [{ product := p, quantity := q }] }

/-- Modelled from the spec: Order.setPayment attaches an unsaved payment. -/
def Order.setPayment (o : Order) (p : PaymentObj) : Order :=
  { o with payment := some p }

/-- Modelled from the spec: Order.setShipment attaches an unsaved shipment. -/
def Order.setShipment (o : Order) (sh : Shipment) : Order :=
  { o with shipment := some sh }

/-- Modelled from the spec: Order.getTotalPrice, the sum of price times
quantity over the order items. -/
def Order.getTotalPrice (o : Order) : Nat :=
  (o.items.map (fun item => item.product.price * item.quantity)).sum

/-- Modelled from the spec: Order.verify — non-empty item list, payment set
and shipment set. -/
def Order.verify (o : Order) : Bool :=
  !o.items.isEmpty && o.payment.isSome && o.shipment.isSome

/-- A persisted order line: product identifier and quantity. -/
structure OrderItemJSON where
  productId : String
  quantity : Nat
  deriving DecidableEq, Repr, Inhabited

/-- The persisted order representation handled by the order repository. -/
structure OrderJSON where
  userId : String
  id : String
  orderDate : String
  items : List OrderItemJSON
  paymentId : String
  shipmentId : String
  status : String
  cancellation : Bool
  deriving DecidableEq, Repr, Inhabited

/-- Modelled from the spec: a user account (the Account model is not in the
sources) — identifier, stored default address and cart reference. -/
structure User where
  id : String
  address : Option String
  cart : Option String
  deriving DecidableEq, Repr, Inhabited

/-- A receipt line: product, quantity and computed price. -/
structure ReceiptItem where
  product : Product
  quantity : Nat
  price : Nat
  deriving DecidableEq, Repr, Inhabited

/-- The receipt snapshot produced by generateReceipt. -/
structure Receipt where
  orderId : String
  user : User
  items : List ReceiptItem
  total : Nat
  payment : PaymentObj
  shipment : Shipment
  deriving DecidableEq, Repr, Inhabited

/-- Modelled from the spec: the external stores consumed by the controller —
session identity, accounts, carts, the product repository, the catalogue, and
the payment, shipment and order stores, plus fresh-identifier counters. -/
structure Store where
  loggedInUser : Option String
  accounts : List User
  carts : List Cart
  products : List Product
  catalogue : Catalogue
  payments : List PaymentObj
  shipments : List Shipment
  orders : List OrderJSON
  nextPaymentId : Nat
  nextShipmentId : Nat
  nextOrderId : Nat
  deriving DecidableEq, Repr, Inhabited

/-- Modelled from the spec: account lookup by user id. -/
def getAccount (s : Store) (uid : String) : Option User :=
  s.accounts.find? (fun u => u.id == uid)

/-- Modelled from the spec: cart access by owning user id; a user without a
stored cart reads as an empty cart. -/
def getCart (s : Store) (uid : String) : Cart :=
  (s.carts.find? (fun c => c.userId == uid)).getD { id := "", userId := uid, items := [] }

/-- Product lookup by id: ProductController.get over the product repository
(the repository store itself is modelled from the spec). -/
def productGet (s : Store) (pid : String) : Option Product :=
  s.products.find? (fun p => p.id == pid)

/-- Modelled from the spec: payment lookup by id. -/
def getPaymentById (s : Store) (pid : String) : Option PaymentObj :=
  s.payments.find? (fun p => p.id == some pid)

/-- Modelled from the spec: shipment lookup by id. -/
def getShipmentById (s : Store) (sid : String) : Option Shipment :=
  s.shipments.find? (fun sh => sh.id == some sid)

/-- Modelled from the spec: the payment store — assigns a fresh identifier
and appends the payment. -/
def storePayment (s : Store) (p : PaymentObj) : PaymentObj × Store :=
  let stored := { p with id := some ("P" ++ toString s.nextPaymentId) }
  (stored, { s with payments := s.payments ++ [stored], nextPaymentId := s.nextPaymentId + 1 })

/-- Modelled from the spec: the shipment store — assigns a fresh identifier
and appends the shipment. -/
def storeShipment (s : Store) (sh : Shipment) : Shipment × Store :=
  let stored := { sh with id := some ("S" ++ toString s.nextShipmentId) }
  (stored, { s with shipments := s.shipments ++ [stored], nextShipmentId := s.nextShipmentId + 1 })

/-- Modelled from the spec: OrderRepository.create — persists a new order
record with a fresh identifier. -/
def orderRepoCreate (s : Store) (userId : String) (items : List OrderItemJSON)
    (paymentId shipmentId status : String) (cancellation : Bool) (now : String) :
    OrderJSON × Store :=
  let oj : OrderJSON :=
    { userId := userId, id := "O" ++ toString s.nextOrderId, orderDate := now,
      items := items, paymentId := paymentId, shipmentId := shipmentId,
      status := status, cancellation := cancellation }
  (oj, { s with orders := s.orders ++ [oj], nextOrderId := s.nextOrderId + 1 })

/-- Modelled from the spec: cart clearing by cart id. -/
def emptyUserCart (s : Store) (cid : String) : Store :=
  { s with carts := s.carts.map (fun c => if c.id == cid then { c with items := [] } else c) }

/-- The failures surfaced by the controller, carrying the message payloads the
code attaches to them. -/
inductive CheckoutError where
  | notLoggedIn
  | missingType
  | accountNotFound
  | emptyCart
  | insufficientStock (message : String)
  | productNotFound (productId : String)
  deriving DecidableEq, Repr

/-- The receipt generator failures. -/
inductive ReceiptError where
  | invalidOrder
  | userNotFound (userId : String)
  deriving DecidableEq, Repr

/-- A store write performed during checkout, recorded in execution order. -/
inductive StoreEvent where
  | storeShipment (id : String)
  | storePayment (id : String)
  | createOrder (id : String)
  | updateQuantity (productId : String) (newQuantity : Nat)
  | emptyCart (cartId : String)
  deriving DecidableEq, Repr

deriving instance DecidableEq for Except

/-- The outcome of a checkout call: the returned order or error, the resulting
store state, and the store writes in order. -/
structure CheckoutResult where
  result : Except CheckoutError Order
  store : Store
  events : List StoreEvent
  deriving DecidableEq, Repr

/-- Resolution of persisted order lines into full line items, one product
lookup per line (the item mapping of parseOrderJSON). -/
def resolveItems (s : Store) : List OrderItemJSON → Except CheckoutError (List OrderItem)
  | [] => .ok []
  | item :: rest =>
    match productGet s item.productId with
    | none => .error (.productNotFound item.productId)
    | some p =>
      match resolveItems s rest with
      | .error e => .error e
      | .ok items => .ok ({ product := p, quantity := item.quantity } :: items)

/-- OrderController.parseOrderJSON: hydrates a persisted order record,
resolving each product id and the payment and shipment ids. -/
def parseOrderJSON (s : Store) (oj : OrderJSON) : Except CheckoutError Order :=
  match resolveItems s oj.items with
  | .error e => .error e
  | .ok items =>
    .ok { userId := oj.userId, id := some oj.id, orderDate := oj.orderDate, items := items,
          payment := getPaymentById s oj.paymentId, shipment := getShipmentById s oj.shipmentId,
          status := oj.status, cancellation := oj.cancellation }

/-- OrderController.createOrder: persists the order record with status Pending
and no cancellation, then hydrates it back. -/
def createOrder (s : Store) (userId : String) (products : List OrderItem)
    (payment : PaymentObj) (shipment : Shipment) (now : String) :
    Except CheckoutError Order × OrderJSON × Store :=
  let items := products.map (fun item =>
    ({ productId := item.product.id, quantity := item.quantity } : OrderItemJSON))
  let created := orderRepoCreate s userId items payment.id.get! shipment.id.get! "Pending" false now
  (parseOrderJSON created.2 created.1, created.1, created.2)

/-- OrderController.generateReceipt. -/
def generateReceipt (s : Store) (order : Order) : Except ReceiptError Receipt :=
  if order.verify = false then
    .error .invalidOrder
  else
    match getAccount s order.userId with
    | none => .error (.userNotFound order.userId)
    | some user =>
      .ok { orderId := order.id.get!, user := user,
            items := order.items.map (fun item =>
              { product := item.product, quantity := item.quantity,
                price := item.product.price * item.quantity }),
            total := order.getTotalPrice,
            payment := order.payment.get!, shipment := order.shipment.get! }

/-- The order built during checkout: a fresh order with every cart line added. -/
def orderWithItems (user : User) (cart : Cart) (now : String) : Order :=
  cart.items.foldl (fun o item => o.addItem item.product item.quantity) (newOrder user.id now)

/-- The shipment details after the delivery address default is resolved
against the user's stored address. -/
def resolvedShipmentDetails (sd : ShipmentDetails) (user : User) : ShipmentDetails :=
  if sd.type = some "delivery" then
    { sd with address := match sd.address with | some a => some a | none => user.address }
  else sd

/-- The payment details after the orchestrator overwrites the amount and, for
card payments, defaults the expiry date and payment gateway. -/
def resolvedPaymentDetails (pd : PaymentDetails) (amount : Nat) (now : String) : PaymentDetails :=
  let pd1 := { pd with amount := some amount }
  if pd1.type = some "card" then
    { pd1 with expiryDate := some (pd1.expiryDate.getD now),
               paymentGateway := some (pd1.paymentGateway.getD "Tyro") }
  else pd1

/-- The unsaved shipment object built during checkout. -/
def checkoutShipment (user : User) (sd : ShipmentDetails) : Shipment :=
  createShipmentObject (resolvedShipmentDetails sd user)

/-- The unsaved payment object built during checkout, with the amount
overwritten to cart subtotal plus shipment fee. -/
def checkoutPayment (user : User) (cart : Cart) (pd : PaymentDetails)
    (sd : ShipmentDetails) (now : String) : PaymentObj :=
  createPaymentObject
    (resolvedPaymentDetails pd (cart.getSubtotalPrice + (checkoutShipment user sd).fee) now)

/-- The in-memory order at the point of persistence: items added, shipment and
payment attached. -/
def checkoutOrder (user : User) (cart : Cart) (pd : PaymentDetails)
    (sd : ShipmentDetails) (now : String) : Order :=
  ((orderWithItems user cart now).setShipment (checkoutShipment user sd)).setPayment
    (checkoutPayment user cart pd sd now)

/-- The stock decrements issued after order persistence: each write sets the
product's quantity to snapshot quantity minus that line's quantity, applied in
the given completion order. -/
def applyStockUpdates (snapshot : Catalogue) (c : Catalogue) (items : List OrderItem) : Catalogue :=
  items.foldl (fun acc item =>
    acc.updateProductQuantity item.product
      (snapshot.getItemQuantity item.product - item.quantity)) c

/-- The persistence phase of OrderController.checkout, entered once every
precondition has passed. -/
def doCheckoutBody (s : Store) (user : User) (cart : Cart) (pd : PaymentDetails)
    (sd : ShipmentDetails) (now : String) : CheckoutResult :=
  let order := checkoutOrder user cart pd sd now
  let ship := storeShipment s order.shipment.get!
  let pay := storePayment ship.2 order.payment.get!
  let co := createOrder pay.2 order.userId order.items pay.1 ship.1 now
  let ev := [StoreEvent.storeShipment ship.1.id.get!,
             StoreEvent.storePayment pay.1.id.get!,
             StoreEvent.createOrder co.2.1.id]
  match co.1 with
  | .error e => ⟨.error e, co.2.2, ev⟩
  | .ok created =>
    let s4 := { co.2.2 with catalogue := applyStockUpdates s.catalogue co.2.2.catalogue order.items }
    let evq := order.items.map (fun item =>
      StoreEvent.updateQuantity item.product.id
        (s.catalogue.getItemQuantity item.product - item.quantity))
    let s5 := emptyUserCart s4 user.cart.get!
    ⟨.ok created, s5, ev ++ evq ++ [StoreEvent.emptyCart user.cart.get!]⟩

/-- OrderController.checkout: the precondition checks in order, then the
persistence phase. -/
def checkout (s : Store) (pd : PaymentDetails) (sd : ShipmentDetails) (now : String) : CheckoutResult :=
  match s.loggedInUser with
  | none => ⟨.error .notLoggedIn, s, []⟩
  | some uid =>
    if pd.type = none ∨ sd.type = none then ⟨.error .missingType, s, []⟩
    else
      match getAccount s uid with
      | none => ⟨.error .accountNotFound, s, []⟩
      | some user =>
        if (getCart s user.id).items.length = 0 then ⟨.error .emptyCart, s, []⟩
        else if ∃ item ∈ (getCart s user.id).items,
            s.catalogue.getItemQuantity item.product < item.quantity then
          ⟨.error (.insufficientStock "One or more products are not available"), s, []⟩
        else doCheckoutBody s user (getCart s user.id) pd sd now

/-- Whether an error message mentions a given product identifier as a
substring (the identifier's characters occur contiguously in the message). -/
def mentionsProduct (msg pid : String) : Bool :=
  decide (pid.data <:+: msg.data)

/-! Helper lemmas about the embedding. -/

lemma optionGetBangSome {α : Type} [Inhabited α] (a : α) : (some a).get! = a := rfl

lemma orderItemEta (it : OrderItem) : ({ product := it.product, quantity := it.quantity } : OrderItem) = it := rfl

lemma foldlAddItem_items (l : List OrderItem) (o : Order) :
    (l.foldl (fun o item => o.addItem item.product item.quantity) o).items = o.items ++ l := by
  induction l generalizing o with
  | nil => simp
  | cons hd tl ih =>
    rw [List.foldl_cons, ih]
    simp [Order.addItem]

lemma foldlAddItem_payment (l : List OrderItem) (o : Order) :
    (l.foldl (fun o item => o.addItem item.product item.quantity) o).payment = o.payment := by
  induction l generalizing o with
  | nil => rfl
  | cons hd tl ih => simp only [List.foldl_cons, ih]; rfl

lemma foldlAddItem_shipment (l : List OrderItem) (o : Order) :
    (l.foldl (fun o item => o.addItem item.product item.quantity) o).shipment = o.shipment := by
  induction l generalizing o with
  | nil => rfl
  | cons hd tl ih => simp only [List.foldl_cons, ih]; rfl

lemma foldlAddItem_userId (l : List OrderItem) (o : Order) :
    (l.foldl (fun o item => o.addItem item.product item.quantity) o).userId = o.userId := by
  induction l generalizing o with
  | nil => rfl
  | cons hd tl ih => simp only [List.foldl_cons, ih]; rfl

lemma orderWithItems_items (user : User) (cart : Cart) (now : String) :
    (orderWithItems user cart now).items = cart.items := by
  simp [orderWithItems, foldlAddItem_items, newOrder]

lemma checkoutOrder_items (user : User) (cart : Cart) (pd : PaymentDetails)
    (sd : ShipmentDetails) (now : String) :
    (checkoutOrder user cart pd sd now).items = cart.items := by
  simp [checkoutOrder, Order.setPayment, Order.setShipment, orderWithItems_items]

lemma checkoutOrder_userId (user : User) (cart : Cart) (pd : PaymentDetails)
    (sd : ShipmentDetails) (now : String) :
    (checkoutOrder user cart pd sd now).userId = user.id := by
  simp [checkoutOrder, Order.setPayment, Order.setShipment, orderWithItems, foldlAddItem_userId, newOrder]

lemma checkoutOrder_shipment (user : User) (cart : Cart) (pd : PaymentDetails)
    (sd : ShipmentDetails) (now : String) :
    (checkoutOrder user cart pd sd now).shipment = some (checkoutShipment user sd) := by
  simp [checkoutOrder, Order.setPayment, Order.setShipment]

lemma checkoutOrder_payment (user : User) (cart : Cart) (pd : PaymentDetails)
    (sd : ShipmentDetails) (now : String) :
    (checkoutOrder user cart pd sd now).payment = some (checkoutPayment user cart pd sd now) := by
  simp [checkoutOrder, Order.setPayment]

lemma stockLookup_stockSet (l : List (String × Nat)) (pid q pid2) :
    stockLookup (stockSet l pid q) pid2 = if pid2 = pid then q else stockLookup l pid2 := by
  induction l with
  | nil =>
    simp only [stockSet, stockLookup]
    by_cases h : pid2 = pid
    · subst h
      simp
    · rw [if_neg (fun hh => h hh.symm), if_neg h]
  | cons e rest ih =>
    simp only [stockSet]
    by_cases he : e.1 = pid
    · rw [if_pos he]
      by_cases h2 : pid2 = pid
      · subst h2
        simp [stockLookup]
      · have hne : ¬pid = pid2 := fun hh => h2 hh.symm
        have hne2 : ¬e.1 = pid2 := fun hh => h2 (hh ▸ he)
        simp only [stockLookup, if_neg hne, if_neg h2, if_neg hne2]
    · rw [if_neg he]
      simp only [stockLookup, ih]
      by_cases h2 : e.1 = pid2
      · have hnp : ¬pid2 = pid := fun hh => he (h2.trans hh)
        rw [if_pos h2, if_neg hnp, if_pos h2]
      · by_cases h3 : pid2 = pid
        · rw [if_neg h2, if_pos h3, if_pos h3]
        · rw [if_neg h2, if_neg h3, if_neg h3, if_neg h2]

lemma applyStockUpdates_nil (snapshot c : Catalogue) :
    applyStockUpdates snapshot c [] = c := rfl

lemma applyStockUpdates_cons (snapshot c : Catalogue) (hd : OrderItem) (tl : List OrderItem) :
    applyStockUpdates snapshot c (hd :: tl) =
      applyStockUpdates snapshot
        (c.updateProductQuantity hd.product
          (snapshot.getItemQuantity hd.product - hd.quantity)) tl := rfl

lemma applyStockUpdates_stock_not_mem (snapshot : Catalogue) (items : List OrderItem)
    (pid : String) (h : ∀ item ∈ items, item.product.id ≠ pid) (c : Catalogue) :
    stockLookup (applyStockUpdates snapshot c items).stock pid = stockLookup c.stock pid := by
  induction items generalizing c with
  | nil => rfl
  | cons hd tl ih =>
    rw [applyStockUpdates_cons, ih (fun it hm => h it (List.mem_cons_of_mem hd hm))]
    simp only [Catalogue.updateProductQuantity, stockLookup_stockSet]
    rw [if_neg (fun hh => h hd (List.mem_cons_self hd tl) hh.symm)]

lemma applyStockUpdates_stock_nodup (snapshot : Catalogue) (items : List OrderItem)
    (hnd : (items.map (fun it => it.product.id)).Nodup) (item : OrderItem)
    (hm : item ∈ items) (c : Catalogue) :
    stockLookup (applyStockUpdates snapshot c items).stock item.product.id
      = snapshot.getItemQuantity item.product - item.quantity := by
  induction items generalizing c with
  | nil => cases hm
  | cons hd tl ih =>
    rw [List.map_cons, List.nodup_cons] at hnd
    rcases List.mem_cons.mp hm with hh | hh
    · subst hh
      rw [applyStockUpdates_cons,
        applyStockUpdates_stock_not_mem snapshot tl item.product.id
          (fun it hit he => hnd.1 (he ▸ List.mem_map_of_mem (fun it => it.product.id) hit))]
      simp [Catalogue.updateProductQuantity, stockLookup_stockSet]
    · rw [applyStockUpdates_cons]
      exact ih hnd.2 hh _

/-- The quantity written by the last-completing decrement for a product id:
the quantity of the last cart line whose product has that id. -/
def lastQtyFor : List OrderItem → String → Option Nat
  | [], _ => none
  | hd :: tl, pid =>
    match lastQtyFor tl pid with
    | some q => some q
    | none => if hd.product.id = pid then some hd.quantity else none

lemma lastQtyFor_none (items : List OrderItem) (pid : String)
    (h : lastQtyFor items pid = none) : ∀ it ∈ items, it.product.id ≠ pid := by
  induction items with
  | nil => simp
  | cons hd tl ih =>
    simp only [lastQtyFor] at h
    cases htl : lastQtyFor tl pid with
    | some q2 => rw [htl] at h; simp at h
    | none =>
      rw [htl] at h
      simp only [] at h
      by_cases hhd : hd.product.id = pid
      · rw [if_pos hhd] at h; simp at h
      · intro it hm
        rcases List.mem_cons.mp hm with hh | hh
        · subst hh; exact hhd
        · exact ih htl it hh

lemma applyStockUpdates_stock_last (snapshot : Catalogue) (items : List OrderItem)
    (pid : String) (q : Nat) (h : lastQtyFor items pid = some q) (c : Catalogue) :
    stockLookup (applyStockUpdates snapshot c items).stock pid
      = stockLookup snapshot.stock pid - q := by
  induction items generalizing c with
  | nil => simp [lastQtyFor] at h
  | cons hd tl ih =>
    rw [applyStockUpdates_cons]
    simp only [lastQtyFor] at h
    cases htl : lastQtyFor tl pid with
    | some q2 =>
      rw [htl] at h
      simp only [Option.some.injEq] at h
      subst h
      exact ih htl _
    | none =>
      rw [htl] at h
      simp only [] at h
      by_cases hhd : hd.product.id = pid
      · rw [if_pos hhd] at h
        simp only [Option.some.injEq] at h
        subst h
        rw [applyStockUpdates_stock_not_mem snapshot tl pid (lastQtyFor_none tl pid htl)]
        simp only [Catalogue.updateProductQuantity, stockLookup_stockSet, if_pos hhd.symm]
        rw [Catalogue.getItemQuantity, hhd]
      · rw [if_neg hhd] at h; simp at h

lemma lastQtyFor_mem (items : List OrderItem) (pid : String) (q : Nat)
    (h : lastQtyFor items pid = some q) :
    q ∈ (items.filter (fun it => it.product.id == pid)).map (fun it => it.quantity) := by
  induction items with
  | nil => simp [lastQtyFor] at h
  | cons hd tl ih =>
    simp only [lastQtyFor] at h
    rw [List.filter_cons]
    cases htl : lastQtyFor tl pid with
    | some q2 =>
      rw [htl] at h
      simp only [Option.some.injEq] at h
      subst h
      by_cases hhd : (hd.product.id == pid) = true
      · rw [if_pos hhd]; simp only [List.map_cons, List.mem_cons]
        exact Or.inr (ih htl)
      · rw [if_neg hhd]; exact ih htl
    | none =>
      rw [htl] at h
      simp only [] at h
      by_cases hhd : hd.product.id = pid
      · rw [if_pos hhd] at h
        simp only [Option.some.injEq] at h
        subst h
        rw [if_pos (beq_iff_eq.mpr hhd)]
        simp
      · rw [if_neg hhd] at h; simp at h

lemma mem_lt_sum (qs : List Nat) (q : Nat) (hq : q ∈ qs) (hlen : 2 ≤ qs.length)
    (hpos : ∀ x ∈ qs, 0 < x) : q < qs.sum := by
  induction qs with
  | nil => cases hq
  | cons a tl ih =>
    rcases List.mem_cons.mp hq with h | h
    · subst h
      have htl : 0 < tl.sum := by
        cases tl with
        | nil => simp at hlen
        | cons b tb =>
          have hb := hpos b (by simp)
          simp only [List.sum_cons]
          omega
      simp only [List.sum_cons]
      omega
    · have hq2 : q ≤ tl.sum :=
        List.single_le_sum (fun x _ => Nat.zero_le x) q h
      have ha := hpos a (by simp)
      simp only [List.sum_cons]
      omega

lemma resolveItems_error_shape (s : Store) (l : List OrderItemJSON) (e : CheckoutError)
    (h : resolveItems s l = .error e) :
    ∃ pid, e = .productNotFound pid ∧ productGet s pid = none := by
  induction l generalizing e with
  | nil => simp [resolveItems] at h
  | cons hd tl ih =>
    simp only [resolveItems] at h
    cases hp : productGet s hd.productId with
    | none =>
      rw [hp] at h
      simp only [Except.error.injEq] at h
      exact ⟨hd.productId, h.symm, hp⟩
    | some p =>
      rw [hp] at h
      cases ht : resolveItems s tl with
      | error e2 =>
        rw [ht] at h
        simp only [Except.error.injEq] at h
        exact h ▸ ih e2 ht
      | ok items => rw [ht] at h; simp at h

lemma resolveItems_ok_of_found (s : Store) (l : List OrderItemJSON)
    (h : ∀ it ∈ l, (productGet s it.productId).isSome = true) :
    ∃ items, resolveItems s l = .ok items := by
  induction l with
  | nil => exact ⟨[], rfl⟩
  | cons hd tl ih =>
    obtain ⟨p, hp⟩ := Option.isSome_iff_exists.mp (h hd (List.mem_cons_self hd tl))
    obtain ⟨items, hitems⟩ := ih (fun it hm => h it (List.mem_cons_of_mem hd hm))
    refine ⟨{ product := p, quantity := hd.quantity } :: items, ?_⟩
    simp only [resolveItems, hp, hitems]

lemma resolveItems_error_of_missing (s : Store) (l : List OrderItemJSON)
    (h : ∃ it ∈ l, productGet s it.productId = none) :
    ∃ pid, resolveItems s l = .error (.productNotFound pid) ∧ productGet s pid = none := by
  induction l with
  | nil => simp at h
  | cons hd tl ih =>
    cases hp : productGet s hd.productId with
    | none => exact ⟨hd.productId, by simp only [resolveItems, hp], hp⟩
    | some p =>
      have htl : ∃ it ∈ tl, productGet s it.productId = none := by
        rcases h with ⟨it, hm, hmiss⟩
        rcases List.mem_cons.mp hm with hh | hh
        · subst hh; rw [hp] at hmiss; cases hmiss
        · exact ⟨it, hh, hmiss⟩
      obtain ⟨pid, hres, hmiss⟩ := ih htl
      refine ⟨pid, ?_, hmiss⟩
      simp only [resolveItems, hp, hres]

lemma checkout_eq_of_not_logged_in (s : Store) (pd : PaymentDetails) (sd : ShipmentDetails)
    (now : String) (h : s.loggedInUser = none) :
    checkout s pd sd now = ⟨.error .notLoggedIn, s, []⟩ := by
  simp [checkout, h]

lemma checkout_eq_of_missing_type (s : Store) (pd : PaymentDetails) (sd : ShipmentDetails)
    (now : String) (uid : String) (hu : s.loggedInUser = some uid)
    (ht : pd.type = none ∨ sd.type = none) :
    checkout s pd sd now = ⟨.error .missingType, s, []⟩ := by
  simp only [checkout, hu]
  rw [if_pos ht]

lemma checkout_eq_of_no_account (s : Store) (pd : PaymentDetails) (sd : ShipmentDetails)
    (now : String) (uid : String) (hu : s.loggedInUser = some uid)
    (hpt : pd.type ≠ none) (hst : sd.type ≠ none)
    (ha : getAccount s uid = none) :
    checkout s pd sd now = ⟨.error .accountNotFound, s, []⟩ := by
  simp only [checkout, hu]
  rw [if_neg (fun hh => hh.elim hpt hst)]
  simp [ha]

lemma checkout_eq_of_empty_cart (s : Store) (pd : PaymentDetails) (sd : ShipmentDetails)
    (now : String) (uid : String) (user : User) (hu : s.loggedInUser = some uid)
    (hpt : pd.type ≠ none) (hst : sd.type ≠ none)
    (ha : getAccount s uid = some user)
    (hc : (getCart s user.id).items = []) :
    checkout s pd sd now = ⟨.error .emptyCart, s, []⟩ := by
  simp only [checkout, hu]
  rw [if_neg (fun hh => hh.elim hpt hst)]
  simp only [ha]
  rw [if_pos (by rw [hc]; rfl)]

lemma checkout_eq_of_insufficient (s : Store) (pd : PaymentDetails) (sd : ShipmentDetails)
    (now : String) (uid : String) (user : User) (hu : s.loggedInUser = some uid)
    (hpt : pd.type ≠ none) (hst : sd.type ≠ none)
    (ha : getAccount s uid = some user)
    (hc : (getCart s user.id).items ≠ [])
    (hstk : ∃ item ∈ (getCart s user.id).items,
      s.catalogue.getItemQuantity item.product < item.quantity) :
    checkout s pd sd now =
      ⟨.error (.insufficientStock "One or more products are not available"), s, []⟩ := by
  simp only [checkout, hu]
  rw [if_neg (fun hh => hh.elim hpt hst)]
  simp only [ha]
  rw [if_neg (fun hh => hc (List.length_eq_zero.mp hh)), if_pos hstk]

lemma checkout_eq_of_guards (s : Store) (pd : PaymentDetails) (sd : ShipmentDetails)
    (now : String) (uid : String) (user : User) (hu : s.loggedInUser = some uid)
    (hpt : pd.type ≠ none) (hst : sd.type ≠ none)
    (ha : getAccount s uid = some user)
    (hc : (getCart s user.id).items ≠ [])
    (hstk : ∀ item ∈ (getCart s user.id).items,
      ¬s.catalogue.getItemQuantity item.product < item.quantity) :
    checkout s pd sd now = doCheckoutBody s user (getCart s user.id) pd sd now := by
  simp only [checkout, hu]
  rw [if_neg (fun hh => hh.elim hpt hst)]
  simp only [ha]
  rw [if_neg (fun hh => hc (List.length_eq_zero.mp hh)),
    if_neg (fun hh => by rcases hh with ⟨it, hm, hlt⟩; exact hstk it hm hlt)]

lemma checkout_ok_elim (s : Store) (pd : PaymentDetails) (sd : ShipmentDetails)
    (now : String) (r : CheckoutResult) (o : Order)
    (h : checkout s pd sd now = r) (hk : r.result = Except.ok o) :
    ∃ uid user, s.loggedInUser = some uid ∧ pd.type ≠ none ∧ sd.type ≠ none ∧
      getAccount s uid = some user ∧ (getCart s user.id).items ≠ [] ∧
      (∀ item ∈ (getCart s user.id).items,
        item.quantity ≤ s.catalogue.getItemQuantity item.product) ∧
      doCheckoutBody s user (getCart s user.id) pd sd now = r := by
  cases hu : s.loggedInUser with
  | none =>
    rw [checkout_eq_of_not_logged_in s pd sd now hu] at h
    subst h
    simp at hk
  | some uid =>
    by_cases ht : pd.type = none ∨ sd.type = none
    · rw [checkout_eq_of_missing_type s pd sd now uid hu ht] at h
      subst h
      simp at hk
    · push_neg at ht
      cases ha : getAccount s uid with
      | none =>
        rw [checkout_eq_of_no_account s pd sd now uid hu ht.1 ht.2 ha] at h
        subst h
        simp at hk
      | some user =>
        by_cases hc : (getCart s user.id).items = []
        · rw [checkout_eq_of_empty_cart s pd sd now uid user hu ht.1 ht.2 ha hc] at h
          subst h
          simp at hk
        · by_cases hstk : ∃ item ∈ (getCart s user.id).items,
            s.catalogue.getItemQuantity item.product < item.quantity
          · rw [checkout_eq_of_insufficient s pd sd now uid user hu ht.1 ht.2 ha hc hstk] at h
            subst h
            simp at hk
          · push_neg at hstk
            refine ⟨uid, user, rfl, ht.1, ht.2, ha, hc, hstk, ?_⟩
            rw [← checkout_eq_of_guards s pd sd now uid user hu ht.1 ht.2 ha hc
              (fun item hm => not_lt.mpr (hstk item hm))]
            exact h

/-- The stored shipment created during checkout persistence. -/
def storedShip (s : Store) (user : User) (sd : ShipmentDetails) : Shipment :=
  { checkoutShipment user sd with id := some ("S" ++ toString s.nextShipmentId) }

/-- The stored payment created during checkout persistence. -/
def storedPay (s : Store) (user : User) (cart : Cart) (pd : PaymentDetails)
    (sd : ShipmentDetails) (now : String) : PaymentObj :=
  { checkoutPayment user cart pd sd now with id := some ("P" ++ toString s.nextPaymentId) }

/-- The persisted order record created during checkout. -/
def checkoutOJ (s : Store) (user : User) (cart : Cart) (now : String) : OrderJSON :=
  { userId := user.id, id := "O" ++ toString s.nextOrderId, orderDate := now,
    items := cart.items.map (fun item =>
      { productId := item.product.id, quantity := item.quantity }),
    paymentId := "P" ++ toString s.nextPaymentId,
    shipmentId := "S" ++ toString s.nextShipmentId,
    status := "Pending", cancellation := false }

/-- The store state after shipment, payment and order persistence. -/
def storeAfterPersist (s : Store) (user : User) (cart : Cart) (pd : PaymentDetails)
    (sd : ShipmentDetails) (now : String) : Store :=
  { s with shipments := s.shipments ++ [storedShip s user sd],
           payments := s.payments ++ [storedPay s user cart pd sd now],
           orders := s.orders ++ [checkoutOJ s user cart now],
           nextShipmentId := s.nextShipmentId + 1,
           nextPaymentId := s.nextPaymentId + 1,
           nextOrderId := s.nextOrderId + 1 }

/-- The three persistence events of checkout, in order. -/
def persistEvents (s : Store) : List StoreEvent :=
  [StoreEvent.storeShipment ("S" ++ toString s.nextShipmentId),
   StoreEvent.storePayment ("P" ++ toString s.nextPaymentId),
   StoreEvent.createOrder ("O" ++ toString s.nextOrderId)]

lemma doCheckoutBody_eq (s : Store) (user : User) (cart : Cart) (pd : PaymentDetails)
    (sd : ShipmentDetails) (now : String) :
    doCheckoutBody s user cart pd sd now =
      match parseOrderJSON (storeAfterPersist s user cart pd sd now)
          (checkoutOJ s user cart now) with
      | .error e => ⟨.error e, storeAfterPersist s user cart pd sd now, persistEvents s⟩
      | .ok created =>
        ⟨.ok created,
          emptyUserCart
            { storeAfterPersist s user cart pd sd now with
              catalogue := applyStockUpdates s.catalogue s.catalogue cart.items }
            user.cart.get!,
          persistEvents s
            ++ cart.items.map (fun item =>
              StoreEvent.updateQuantity item.product.id
                (s.catalogue.getItemQuantity item.product - item.quantity))
            ++ [StoreEvent.emptyCart user.cart.get!]⟩ := by
  simp only [doCheckoutBody, checkoutOrder_shipment, checkoutOrder_payment,
    checkoutOrder_items, checkoutOrder_userId, optionGetBangSome,
    storeShipment, storePayment, createOrder, orderRepoCreate,
    storeAfterPersist, storedShip, storedPay, checkoutOJ, persistEvents]

lemma checkout_ok_full (s : Store) (pd : PaymentDetails) (sd : ShipmentDetails)
    (now : String) (r : CheckoutResult) (o : Order)
    (h : checkout s pd sd now = r) (hk : r.result = Except.ok o) :
    ∃ uid user, s.loggedInUser = some uid ∧ pd.type ≠ none ∧ sd.type ≠ none ∧
      getAccount s uid = some user ∧ (getCart s user.id).items ≠ [] ∧
      (∀ item ∈ (getCart s user.id).items,
        item.quantity ≤ s.catalogue.getItemQuantity item.product) ∧
      parseOrderJSON (storeAfterPersist s user (getCart s user.id) pd sd now)
        (checkoutOJ s user (getCart s user.id) now) = .ok o ∧
      r.store = emptyUserCart
        { storeAfterPersist s user (getCart s user.id) pd sd now with
          catalogue := applyStockUpdates s.catalogue s.catalogue (getCart s user.id).items }
        user.cart.get! ∧
      r.events = persistEvents s
        ++ (getCart s user.id).items.map (fun item =>
          StoreEvent.updateQuantity item.product.id
            (s.catalogue.getItemQuantity item.product - item.quantity))
        ++ [StoreEvent.emptyCart user.cart.get!] := by
  obtain ⟨uid, user, hu, h1, h2, ha, hc, hstk, hd⟩ := checkout_ok_elim s pd sd now r o h hk
  rw [doCheckoutBody_eq] at hd
  cases hp : parseOrderJSON (storeAfterPersist s user (getCart s user.id) pd sd now)
      (checkoutOJ s user (getCart s user.id) now) with
  | error e =>
    rw [hp] at hd
    dsimp only at hd
    subst hd
    simp at hk
  | ok created =>
    rw [hp] at hd
    dsimp only at hd
    subst hd
    dsimp only at hk
    rw [Except.ok.injEq] at hk
    subst hk
    exact ⟨uid, user, hu, h1, h2, ha, hc, hstk, hp, rfl, rfl⟩

lemma parseOrderJSON_error_elim (s : Store) (oj : OrderJSON) (e : CheckoutError)
    (h : parseOrderJSON s oj = .error e) : resolveItems s oj.items = .error e := by
  unfold parseOrderJSON at h
  cases hr : resolveItems s oj.items with
  | error e2 =>
    rw [hr] at h
    dsimp only at h
    rw [Except.error.injEq] at h
    rw [h]
  | ok items => rw [hr] at h; dsimp only at h; cases h

lemma parseOrderJSON_error_intro (s : Store) (oj : OrderJSON) (e : CheckoutError)
    (h : resolveItems s oj.items = .error e) : parseOrderJSON s oj = .error e := by
  unfold parseOrderJSON
  rw [h]

lemma productGet_storeAfterPersist (s : Store) (user : User) (cart : Cart)
    (pd : PaymentDetails) (sd : ShipmentDetails) (now : String) (pid : String) :
    productGet (storeAfterPersist s user cart pd sd now) pid = productGet s pid := rfl

lemma doCheckoutBody_no_insufficient (s : Store) (user : User) (cart : Cart)
    (pd : PaymentDetails) (sd : ShipmentDetails) (now : String) (msg : String) :
    (doCheckoutBody s user cart pd sd now).result
      ≠ Except.error (.insufficientStock msg) := by
  rw [doCheckoutBody_eq]
  cases hp : parseOrderJSON (storeAfterPersist s user cart pd sd now)
      (checkoutOJ s user cart now) with
  | error e =>
    dsimp only
    intro hh
    rw [Except.error.injEq] at hh
    obtain ⟨pid, he, _⟩ :=
      resolveItems_error_shape _ _ _ (parseOrderJSON_error_elim _ _ _ hp)
    rw [he] at hh
    cases hh
  | ok created =>
    dsimp only
    intro hh
    cases hh

/-! Concrete fixtures used by the witnesses and counterexamples. -/

def prodA : Product := { id := "prodA", price := 10 }

def prodB : Product := { id := "prodB", price := 5 }

def userU : User := { id := "u1", address := some "12 High St", cart := some "cart1" }

def baseStore : Store :=
  { loggedInUser := some "u1", accounts := [userU],
    carts := [{ id := "cart1", userId := "u1", items := [⟨prodA, 2⟩, ⟨prodB, 1⟩] }],
    products := [prodA, prodB],
    catalogue := ⟨[("prodA", 5), ("prodB", 5)]⟩,
    payments := [], shipments := [], orders := [],
    nextPaymentId := 0, nextShipmentId := 0, nextOrderId := 0 }

def cardDetails : PaymentDetails :=
  { type := some "card", amount := some 999, date := none, status := none,
    cardNumber := some "4111", expiryDate := none, paymentGateway := none }

def deliveryDetails : ShipmentDetails :=
  { type := some "delivery", fee := some 3, address := none }

def pickupDetails : ShipmentDetails :=
  { type := some "pickup", fee := some 0, address := none }

def lowStockStore : Store :=
  { baseStore with catalogue := ⟨[("prodA", 1), ("prodB", 5)]⟩ }

def emptiedStore : Store :=
  { baseStore with carts := [{ id := "cart1", userId := "u1", items := [] }] }

def dupStore : Store :=
  { baseStore with
    carts := [{ id := "cart1", userId := "u1", items := [⟨prodA, 1⟩, ⟨prodA, 2⟩] }],
    products := [prodA], catalogue := ⟨[("prodA", 5)]⟩ }

def dupStore2 : Store :=
  { baseStore with
    carts := [{ id := "cart1", userId := "u1", items := [⟨prodA, 3⟩, ⟨prodA, 4⟩] }],
    products := [prodA], catalogue := ⟨[("prodA", 5)]⟩ }

def ghostProd : Product := { id := "ghost", price := 7 }

def ghostStore : Store :=
  { baseStore with
    carts := [{ id := "cart1", userId := "u1", items := [⟨ghostProd, 1⟩] }],
    products := [prodA, prodB], catalogue := ⟨[("ghost", 5)]⟩ }

def validOrder : Order :=
  { userId := "u1", id := some "O9", orderDate := "T0", items := [⟨prodA, 2⟩],
    payment := some (createPaymentObject cardDetails),
    shipment := some (createShipmentObject deliveryDetails),
    status := "Pending", cancellation := false }

def bareOrder : Order :=
  { userId := "u1", id := none, orderDate := "T0", items := [],
    payment := none, shipment := none, status := "Pending", cancellation := false }

/-- Extracts the returned order of a successful checkout result. -/
def okOrder (r : CheckoutResult) : Order :=
  match r.result with
  | .ok o => o
  | .error _ => default

/-- Extracts the receipt of a successful generation. -/
def receiptOf (e : Except ReceiptError Receipt) : Receipt :=
  match e with
  | .ok rc => rc
  | .error _ => default

/-- C7: for every authenticated checkout call with both type fields present
whose user's cart has zero items, checkout fails with EmptyCart and performs
no store writes — the store is returned unchanged and no write events occur. -/
theorem checkout_empty_cart_no_writes (s : Store) (pd : PaymentDetails)
    (sd : ShipmentDetails) (now : String) (uid : String) (user : User)
    (hu : s.loggedInUser = some uid) (hpt : pd.type ≠ none) (hst : sd.type ≠ none)
    (ha : getAccount s uid = some user) (hc : (getCart s user.id).items = []) :
    checkout s pd sd now = ⟨.error .emptyCart, s, []⟩ :=
  checkout_eq_of_empty_cart s pd sd now uid user hu hpt hst ha hc

/-- Witness for C7 at a concrete store whose only cart is empty. -/
theorem checkout_empty_cart_no_writes_witness :
    emptiedStore.loggedInUser = some "u1" ∧ cardDetails.type ≠ none ∧
    deliveryDetails.type ≠ none ∧ getAccount emptiedStore "u1" = some userU ∧
    (getCart emptiedStore userU.id).items = [] ∧
    checkout emptiedStore cardDetails deliveryDetails "T0" =
      ⟨.error .emptyCart, emptiedStore, []⟩ :=
  ⟨rfl, by decide, by decide, by decide, by decide,
    checkout_empty_cart_no_writes emptiedStore cardDetails deliveryDetails "T0" "u1" userU
      rfl (by decide) (by decide) (by decide) (by decide)⟩

/-- C5: generateReceipt fails with InvalidOrder exactly when verify is false;
verify holds exactly for a non-empty item list with payment and shipment set;
and for a verified order it fails with UserNotFound exactly when the user
cannot be resolved — the verify check preceding the user resolution. -/
theorem generateReceipt_error_cases (s : Store) (order : Order) :
    ((generateReceipt s order = .error .invalidOrder) ↔ order.verify = false)
    ∧ (order.verify = true ↔
        (order.items ≠ [] ∧ order.payment.isSome = true ∧ order.shipment.isSome = true))
    ∧ (order.verify = true →
        ((generateReceipt s order = .error (.userNotFound order.userId)) ↔
          getAccount s order.userId = none)) := by
  refine ⟨⟨?_, ?_⟩, ?_, ?_⟩
  · intro hfail
    by_contra hv
    have hv2 : order.verify = true := by
      cases hb : order.verify
      · exact absurd hb hv
      · rfl
    unfold generateReceipt at hfail
    rw [if_neg (by rw [hv2]; exact fun hh => Bool.noConfusion hh)] at hfail
    cases hacc : getAccount s order.userId with
    | none =>
      rw [hacc] at hfail
      dsimp only at hfail
      rw [Except.error.injEq] at hfail
      cases hfail
    | some u =>
      rw [hacc] at hfail
      dsimp only at hfail
      cases hfail
  · intro hv
    unfold generateReceipt
    rw [if_pos hv]
  · constructor
    · intro hv
      simp only [Order.verify, Bool.and_eq_true, Bool.not_eq_true'] at hv
      obtain ⟨⟨h1, h2⟩, h3⟩ := hv
      refine ⟨fun hh => ?_, h2, h3⟩
      rw [hh] at h1
      cases h1
    · rintro ⟨h1, h2, h3⟩
      simp only [Order.verify, Bool.and_eq_true, Bool.not_eq_true']
      refine ⟨⟨?_, h2⟩, h3⟩
      cases hitems : order.items with
      | nil => exact absurd hitems h1
      | cons a l => rfl
  · intro hv
    constructor
    · intro hfail
      unfold generateReceipt at hfail
      rw [if_neg (by rw [hv]; exact fun hh => Bool.noConfusion hh)] at hfail
      cases hacc : getAccount s order.userId with
      | none => rfl
      | some u =>
        rw [hacc] at hfail
        dsimp only at hfail
        cases hfail
    · intro hacc
      unfold generateReceipt
      rw [if_neg (by rw [hv]; exact fun hh => Bool.noConfusion hh), hacc]

/-- Witness for C5: a bare order fails verification and receipt generation. -/
theorem generateReceipt_error_cases_witness :
    generateReceipt baseStore bareOrder = .error .invalidOrder :=
  (generateReceipt_error_cases baseStore bareOrder).1.mpr rfl

/-- C6: for every successful generateReceipt, the receipt total equals the
order's totalPrice and every receipt line price is product price times
quantity evaluated from the order's products at generation time; the pure
generator leaves the order unchanged. -/
theorem generateReceipt_values (s : Store) (order : Order) (receipt : Receipt)
    (h : generateReceipt s order = .ok receipt) :
    receipt.total = order.getTotalPrice ∧
    receipt.items = order.items.map (fun item =>
      { product := item.product, quantity := item.quantity,
        price := item.product.price * item.quantity }) ∧
    ∀ line ∈ receipt.items, line.price = line.product.price * line.quantity := by
  unfold generateReceipt at h
  by_cases hv : order.verify = false
  · rw [if_pos hv] at h; cases h
  · rw [if_neg hv] at h
    cases hacc : getAccount s order.userId with
    | none => rw [hacc] at h; dsimp only at h; cases h
    | some u =>
      rw [hacc] at h
      dsimp only at h
      rw [Except.ok.injEq] at h
      subst h
      refine ⟨rfl, rfl, ?_⟩
      intro line hline
      simp only [List.mem_map] at hline
      obtain ⟨item, _, he⟩ := hline
      rw [← he]

/-- Witness for C6 at a concrete valid order against the base store. -/
theorem generateReceipt_values_witness :
    generateReceipt baseStore validOrder
        = .ok (receiptOf (generateReceipt baseStore validOrder)) ∧
    (receiptOf (generateReceipt baseStore validOrder)).total = validOrder.getTotalPrice ∧
    (receiptOf (generateReceipt baseStore validOrder)).items = validOrder.items.map (fun item =>
      { product := item.product, quantity := item.quantity,
        price := item.product.price * item.quantity }) ∧
    ∀ line ∈ (receiptOf (generateReceipt baseStore validOrder)).items,
      line.price = line.product.price * line.quantity :=
  ⟨rfl, generateReceipt_values baseStore validOrder
    (receiptOf (generateReceipt baseStore validOrder)) rfl⟩

/-- C1 (amended): for every checkout call that passes authentication,
type-presence and non-empty-cart checks, checkout fails with
InsufficientStock — carrying the fixed message that does not name the
offending products — exactly when some cart line's quantity exceeds the
catalogue snapshot quantity for that product, and in that case the store is
unchanged and no write events occur. -/
theorem checkout_insufficient_stock_iff (s : Store) (pd : PaymentDetails)
    (sd : ShipmentDetails) (now : String) (uid : String) (user : User)
    (r : CheckoutResult)
    (hu : s.loggedInUser = some uid) (hpt : pd.type ≠ none) (hst : sd.type ≠ none)
    (ha : getAccount s uid = some user) (hc : (getCart s user.id).items ≠ [])
    (h : checkout s pd sd now = r) :
    ((∃ msg, r.result = .error (.insufficientStock msg)) ↔
      ∃ item ∈ (getCart s user.id).items,
        s.catalogue.getItemQuantity item.product < item.quantity)
    ∧ ((∃ item ∈ (getCart s user.id).items,
        s.catalogue.getItemQuantity item.product < item.quantity) →
      r = ⟨.error (.insufficientStock "One or more products are not available"), s, []⟩) := by
  have hins : (∃ item ∈ (getCart s user.id).items,
      s.catalogue.getItemQuantity item.product < item.quantity) →
      r = ⟨.error (.insufficientStock "One or more products are not available"), s, []⟩ := by
    intro hstk
    have he := checkout_eq_of_insufficient s pd sd now uid user hu hpt hst ha hc hstk
    rw [h] at he
    exact he
  refine ⟨⟨?_, ?_⟩, hins⟩
  · rintro ⟨msg, hmsg⟩
    by_contra hstk
    have hg := checkout_eq_of_guards s pd sd now uid user hu hpt hst ha hc
      (fun item hm hlt => hstk ⟨item, hm, hlt⟩)
    rw [h] at hg
    rw [hg] at hmsg
    exact doCheckoutBody_no_insufficient s user (getCart s user.id) pd sd now msg hmsg
  · intro hstk
    rw [hins hstk]
    exact ⟨"One or more products are not available", rfl⟩

/-- Witness for C1 at a concrete store with stock 1 for a cart line of 2. -/
theorem checkout_insufficient_stock_iff_witness :
    lowStockStore.loggedInUser = some "u1" ∧ cardDetails.type ≠ none ∧
    deliveryDetails.type ≠ none ∧ getAccount lowStockStore "u1" = some userU ∧
    (getCart lowStockStore userU.id).items ≠ [] ∧
    (((∃ msg, (checkout lowStockStore cardDetails deliveryDetails "T0").result
        = .error (.insufficientStock msg)) ↔
      ∃ item ∈ (getCart lowStockStore userU.id).items,
        lowStockStore.catalogue.getItemQuantity item.product < item.quantity)
    ∧ ((∃ item ∈ (getCart lowStockStore userU.id).items,
        lowStockStore.catalogue.getItemQuantity item.product < item.quantity) →
      checkout lowStockStore cardDetails deliveryDetails "T0"
        = ⟨.error (.insufficientStock "One or more products are not available"),
           lowStockStore, []⟩)) :=
  ⟨rfl, by decide, by decide, by decide, by decide,
    checkout_insufficient_stock_iff lowStockStore cardDetails deliveryDetails "T0" "u1" userU
      (checkout lowStockStore cardDetails deliveryDetails "T0")
      rfl (by decide) (by decide) (by decide) (by decide) rfl⟩

/-- Counterexample for C1 as stated: on a store where product prodA is the
offending product, checkout fails with the fixed message, and that message
does not mention the offending product identifier at all. -/
theorem checkout_insufficient_stock_unnamed :
    (checkout lowStockStore cardDetails deliveryDetails "T0").result
        = .error (.insufficientStock "One or more products are not available")
    ∧ ((⟨prodA, 2⟩ : OrderItem) ∈ (getCart lowStockStore "u1").items
        ∧ lowStockStore.catalogue.getItemQuantity prodA < 2)
    ∧ mentionsProduct "One or more products are not available" "prodA" = false := by
  refine ⟨by decide, by decide, ?_⟩
  decide

lemma checkoutPayment_amount (user : User) (cart : Cart) (pd : PaymentDetails)
    (sd : ShipmentDetails) (now : String) :
    (checkoutPayment user cart pd sd now).amount
      = cart.getSubtotalPrice + (checkoutShipment user sd).fee := by
  simp only [checkoutPayment, createPaymentObject, resolvedPaymentDetails]
  by_cases hcard : pd.type = some "card"
  · simp [hcard]
  · simp [hcard]

lemma checkoutPayment_expiry_card (user : User) (cart : Cart) (pd : PaymentDetails)
    (sd : ShipmentDetails) (now : String) (hcard : pd.type = some "card") :
    (checkoutPayment user cart pd sd now).expiryDate = some (pd.expiryDate.getD now) := by
  simp [checkoutPayment, createPaymentObject, resolvedPaymentDetails, hcard]

lemma checkoutPayment_gateway_card (user : User) (cart : Cart) (pd : PaymentDetails)
    (sd : ShipmentDetails) (now : String) (hcard : pd.type = some "card") :
    (checkoutPayment user cart pd sd now).paymentGateway
      = some (pd.paymentGateway.getD "Tyro") := by
  simp [checkoutPayment, createPaymentObject, resolvedPaymentDetails, hcard]

lemma checkoutPayment_expiry_noncard (user : User) (cart : Cart) (pd : PaymentDetails)
    (sd : ShipmentDetails) (now : String) (hcard : pd.type ≠ some "card") :
    (checkoutPayment user cart pd sd now).expiryDate = pd.expiryDate := by
  simp [checkoutPayment, createPaymentObject, resolvedPaymentDetails, hcard]

lemma checkoutPayment_gateway_noncard (user : User) (cart : Cart) (pd : PaymentDetails)
    (sd : ShipmentDetails) (now : String) (hcard : pd.type ≠ some "card") :
    (checkoutPayment user cart pd sd now).paymentGateway = pd.paymentGateway := by
  simp [checkoutPayment, createPaymentObject, resolvedPaymentDetails, hcard]

/-- C2: for every successful checkout, the persisted payment's amount equals
the cart subtotal plus the persisted shipment's fee, regardless of any
caller-supplied amount in the payment details. -/
theorem checkout_payment_amount (s : Store) (pd : PaymentDetails) (sd : ShipmentDetails)
    (now : String) (r : CheckoutResult) (o : Order)
    (h : checkout s pd sd now = r) (hk : r.result = Except.ok o) :
    ∃ uid user p sh,
      s.loggedInUser = some uid ∧ getAccount s uid = some user ∧
      r.store.payments.getLast? = some p ∧
      r.store.shipments.getLast? = some sh ∧
      p.amount = (getCart s user.id).getSubtotalPrice + sh.fee := by
  obtain ⟨uid, user, hu, _, _, ha, _, _, _, hstore, _⟩ := checkout_ok_full s pd sd now r o h hk
  refine ⟨uid, user, storedPay s user (getCart s user.id) pd sd now, storedShip s user sd,
    hu, ha, ?_, ?_, ?_⟩
  · rw [hstore]
    exact List.getLast?_concat _
  · rw [hstore]
    exact List.getLast?_concat _
  · exact checkoutPayment_amount user (getCart s user.id) pd sd now

/-- Witness for C2 at the base store: the amount is the subtotal 25 plus the
fee 3 although the caller supplied 999. -/
theorem checkout_payment_amount_witness :
    (checkout baseStore cardDetails deliveryDetails "T0").result
      = Except.ok (okOrder (checkout baseStore cardDetails deliveryDetails "T0")) ∧
    ∃ uid user p sh,
      baseStore.loggedInUser = some uid ∧ getAccount baseStore uid = some user ∧
      (checkout baseStore cardDetails deliveryDetails "T0").store.payments.getLast? = some p ∧
      (checkout baseStore cardDetails deliveryDetails "T0").store.shipments.getLast? = some sh ∧
      p.amount = (getCart baseStore user.id).getSubtotalPrice + sh.fee :=
  ⟨rfl, checkout_payment_amount baseStore cardDetails deliveryDetails "T0"
    (checkout baseStore cardDetails deliveryDetails "T0")
    (okOrder (checkout baseStore cardDetails deliveryDetails "T0")) rfl rfl⟩

/-- C8: for every successful checkout with payment type card, the persisted
payment's expiry date is the caller value when present and otherwise the
current timestamp, and its gateway is the caller value when present and
otherwise the fixed provider Tyro; for a non-card type both fields pass
through unchanged. -/
theorem checkout_card_defaults (s : Store) (pd : PaymentDetails) (sd : ShipmentDetails)
    (now : String) (r : CheckoutResult) (o : Order)
    (h : checkout s pd sd now = r) (hk : r.result = Except.ok o) :
    ∃ p, r.store.payments.getLast? = some p ∧
      (pd.type = some "card" →
        p.expiryDate = some (pd.expiryDate.getD now) ∧
        p.paymentGateway = some (pd.paymentGateway.getD "Tyro")) ∧
      (pd.type ≠ some "card" →
        p.expiryDate = pd.expiryDate ∧ p.paymentGateway = pd.paymentGateway) := by
  obtain ⟨uid, user, hu, _, _, ha, _, _, _, hstore, _⟩ := checkout_ok_full s pd sd now r o h hk
  refine ⟨storedPay s user (getCart s user.id) pd sd now, ?_, ?_, ?_⟩
  · rw [hstore]
    exact List.getLast?_concat _
  · intro hcard
    exact ⟨checkoutPayment_expiry_card user (getCart s user.id) pd sd now hcard,
      checkoutPayment_gateway_card user (getCart s user.id) pd sd now hcard⟩
  · intro hcard
    exact ⟨checkoutPayment_expiry_noncard user (getCart s user.id) pd sd now hcard,
      checkoutPayment_gateway_noncard user (getCart s user.id) pd sd now hcard⟩

/-- Witness for C8 at the base store with a card payment lacking expiry and
gateway. -/
theorem checkout_card_defaults_witness :
    (checkout baseStore cardDetails deliveryDetails "T0").result
      = Except.ok (okOrder (checkout baseStore cardDetails deliveryDetails "T0")) ∧
    ∃ p, (checkout baseStore cardDetails deliveryDetails "T0").store.payments.getLast?
        = some p ∧
      (cardDetails.type = some "card" →
        p.expiryDate = some (cardDetails.expiryDate.getD "T0") ∧
        p.paymentGateway = some (cardDetails.paymentGateway.getD "Tyro")) ∧
      (cardDetails.type ≠ some "card" →
        p.expiryDate = cardDetails.expiryDate ∧
        p.paymentGateway = cardDetails.paymentGateway) :=
  ⟨rfl, checkout_card_defaults baseStore cardDetails deliveryDetails "T0"
    (checkout baseStore cardDetails deliveryDetails "T0")
    (okOrder (checkout baseStore cardDetails deliveryDetails "T0")) rfl rfl⟩

/-- C9: for every successful checkout the order record is persisted with
status Pending and cancellation false, referencing the stored payment and
shipment identifiers, and the write sequence is shipment store, then payment
store, then order creation. -/
theorem checkout_order_persisted_after_shipment_payment (s : Store) (pd : PaymentDetails)
    (sd : ShipmentDetails) (now : String) (r : CheckoutResult) (o : Order)
    (h : checkout s pd sd now = r) (hk : r.result = Except.ok o) :
    ∃ sid pid oid rest oj sh p,
      r.events = StoreEvent.storeShipment sid :: StoreEvent.storePayment pid ::
        StoreEvent.createOrder oid :: rest ∧
      r.store.orders.getLast? = some oj ∧
      oj.id = oid ∧ oj.paymentId = pid ∧ oj.shipmentId = sid ∧
      oj.status = "Pending" ∧ oj.cancellation = false ∧
      r.store.shipments.getLast? = some sh ∧ sh.id = some sid ∧
      r.store.payments.getLast? = some p ∧ p.id = some pid := by
  obtain ⟨uid, user, hu, _, _, ha, _, _, _, hstore, hevents⟩ :=
    checkout_ok_full s pd sd now r o h hk
  refine ⟨"S" ++ toString s.nextShipmentId, "P" ++ toString s.nextPaymentId,
    "O" ++ toString s.nextOrderId,
    (getCart s user.id).items.map (fun item => StoreEvent.updateQuantity item.product.id
      (s.catalogue.getItemQuantity item.product - item.quantity))
      ++ [StoreEvent.emptyCart user.cart.get!],
    checkoutOJ s user (getCart s user.id) now,
    storedShip s user sd, storedPay s user (getCart s user.id) pd sd now,
    ?_, ?_, rfl, rfl, rfl, rfl, rfl, ?_, rfl, ?_, rfl⟩
  · rw [hevents]
    simp [persistEvents]
  · rw [hstore]
    exact List.getLast?_concat _
  · rw [hstore]
    exact List.getLast?_concat _
  · rw [hstore]
    exact List.getLast?_concat _

/-- Witness for C9 at the base store. -/
theorem checkout_order_persisted_witness :
    (checkout baseStore cardDetails deliveryDetails "T0").result
      = Except.ok (okOrder (checkout baseStore cardDetails deliveryDetails "T0")) ∧
    ∃ sid pid oid rest oj sh p,
      (checkout baseStore cardDetails deliveryDetails "T0").events
        = StoreEvent.storeShipment sid :: StoreEvent.storePayment pid ::
          StoreEvent.createOrder oid :: rest ∧
      (checkout baseStore cardDetails deliveryDetails "T0").store.orders.getLast? = some oj ∧
      oj.id = oid ∧ oj.paymentId = pid ∧ oj.shipmentId = sid ∧
      oj.status = "Pending" ∧ oj.cancellation = false ∧
      (checkout baseStore cardDetails deliveryDetails "T0").store.shipments.getLast?
        = some sh ∧ sh.id = some sid ∧
      (checkout baseStore cardDetails deliveryDetails "T0").store.payments.getLast?
        = some p ∧ p.id = some pid :=
  ⟨rfl, checkout_order_persisted_after_shipment_payment baseStore cardDetails deliveryDetails
    "T0" (checkout baseStore cardDetails deliveryDetails "T0")
    (okOrder (checkout baseStore cardDetails deliveryDetails "T0")) rfl rfl⟩

/-- C3 (amended): for every successful checkout whose cart lines concern
pairwise distinct products, the post-checkout catalogue quantity of every
ordered line's product equals the pre-checkout snapshot quantity minus that
line's quantity, each decrement being computed as snapshot quantity minus
requested quantity. -/
theorem checkout_stock_decrement_nodup (s : Store) (pd : PaymentDetails)
    (sd : ShipmentDetails) (now : String) (uid : String) (user : User)
    (r : CheckoutResult) (o : Order)
    (hu : s.loggedInUser = some uid) (ha : getAccount s uid = some user)
    (hnd : ((getCart s user.id).items.map (fun it => it.product.id)).Nodup)
    (h : checkout s pd sd now = r) (hk : r.result = Except.ok o) :
    ∀ item ∈ (getCart s user.id).items,
      r.store.catalogue.getItemQuantity item.product
        = s.catalogue.getItemQuantity item.product - item.quantity := by
  obtain ⟨uid2, user2, hu2, _, _, ha2, _, _, _, hstore, _⟩ :=
    checkout_ok_full s pd sd now r o h hk
  rw [hu, Option.some.injEq] at hu2
  subst hu2
  rw [ha, Option.some.injEq] at ha2
  subst ha2
  intro item hm
  rw [hstore]
  show stockLookup
      (applyStockUpdates s.catalogue s.catalogue (getCart s user.id).items).stock
      item.product.id
    = s.catalogue.getItemQuantity item.product - item.quantity
  exact applyStockUpdates_stock_nodup s.catalogue _ hnd item hm s.catalogue

/-- Witness for C3 at the base store with two distinct products. -/
theorem checkout_stock_decrement_nodup_witness :
    baseStore.loggedInUser = some "u1" ∧ getAccount baseStore "u1" = some userU ∧
    ((getCart baseStore userU.id).items.map (fun it => it.product.id)).Nodup ∧
    (checkout baseStore cardDetails deliveryDetails "T0").result
      = Except.ok (okOrder (checkout baseStore cardDetails deliveryDetails "T0")) ∧
    ∀ item ∈ (getCart baseStore userU.id).items,
      (checkout baseStore cardDetails deliveryDetails "T0").store.catalogue.getItemQuantity
          item.product
        = baseStore.catalogue.getItemQuantity item.product - item.quantity :=
  ⟨rfl, by decide, by decide, rfl,
    checkout_stock_decrement_nodup baseStore cardDetails deliveryDetails "T0" "u1" userU
      (checkout baseStore cardDetails deliveryDetails "T0")
      (okOrder (checkout baseStore cardDetails deliveryDetails "T0"))
      rfl (by decide) (by decide) rfl rfl⟩

/-- Counterexample for C3 as stated: with two cart lines for the same product
(quantities 1 and 2 against stock 5) checkout succeeds, yet the final
quantity 3 reflects only the last line's decrement, not snapshot minus each
line's quantity — the line of quantity 1 would require 4. -/
theorem checkout_stock_decrement_duplicate_cex :
    (checkout dupStore cardDetails pickupDetails "T0").result
      = Except.ok (okOrder (checkout dupStore cardDetails pickupDetails "T0")) ∧
    ¬(∀ item ∈ (getCart dupStore "u1").items,
        (checkout dupStore cardDetails pickupDetails "T0").store.catalogue.getItemQuantity
            item.product
          = dupStore.catalogue.getItemQuantity item.product - item.quantity) :=
  ⟨rfl, by decide⟩

lemma checkout_ok_of_resolvable (s : Store) (pd : PaymentDetails) (sd : ShipmentDetails)
    (now : String) (uid : String) (user : User)
    (hu : s.loggedInUser = some uid) (hpt : pd.type ≠ none) (hst : sd.type ≠ none)
    (ha : getAccount s uid = some user) (hc : (getCart s user.id).items ≠ [])
    (hfit : ∀ item ∈ (getCart s user.id).items,
      item.quantity ≤ s.catalogue.getItemQuantity item.product)
    (hres : ∀ item ∈ (getCart s user.id).items,
      (productGet s item.product.id).isSome = true) :
    ∃ o, checkout s pd sd now =
      ⟨Except.ok o,
       emptyUserCart
         { storeAfterPersist s user (getCart s user.id) pd sd now with
           catalogue := applyStockUpdates s.catalogue s.catalogue (getCart s user.id).items }
         user.cart.get!,
       persistEvents s
         ++ (getCart s user.id).items.map (fun item =>
           StoreEvent.updateQuantity item.product.id
             (s.catalogue.getItemQuantity item.product - item.quantity))
         ++ [StoreEvent.emptyCart user.cart.get!]⟩ := by
  rw [checkout_eq_of_guards s pd sd now uid user hu hpt hst ha hc
    (fun item hm => not_lt.mpr (hfit item hm))]
  rw [doCheckoutBody_eq]
  have hok : ∃ items0, resolveItems (storeAfterPersist s user (getCart s user.id) pd sd now)
      (checkoutOJ s user (getCart s user.id) now).items = .ok items0 := by
    apply resolveItems_ok_of_found
    intro it hm
    have hm2 : it ∈ (getCart s user.id).items.map (fun item =>
        ({ productId := item.product.id, quantity := item.quantity } : OrderItemJSON)) := hm
    rw [List.mem_map] at hm2
    obtain ⟨item, hmem, he⟩ := hm2
    rw [productGet_storeAfterPersist, ← he]
    exact hres item hmem
  obtain ⟨items0, hok⟩ := hok
  have hparse : parseOrderJSON (storeAfterPersist s user (getCart s user.id) pd sd now)
      (checkoutOJ s user (getCart s user.id) now) = .ok
        { userId := (checkoutOJ s user (getCart s user.id) now).userId,
          id := some (checkoutOJ s user (getCart s user.id) now).id,
          orderDate := (checkoutOJ s user (getCart s user.id) now).orderDate,
          items := items0,
          payment := getPaymentById (storeAfterPersist s user (getCart s user.id) pd sd now)
            (checkoutOJ s user (getCart s user.id) now).paymentId,
          shipment := getShipmentById (storeAfterPersist s user (getCart s user.id) pd sd now)
            (checkoutOJ s user (getCart s user.id) now).shipmentId,
          status := (checkoutOJ s user (getCart s user.id) now).status,
          cancellation := (checkoutOJ s user (getCart s user.id) now).cancellation } := by
    unfold parseOrderJSON
    rw [hok]
  rw [hparse]
  dsimp only
  exact ⟨_, rfl⟩

/-- C4: when every cart line individually fits the same snapshot, the
availability check passes (even when lines for one product jointly exceed
stock) and checkout succeeds; the final catalogue quantity for a product with
several lines is snapshot quantity minus the last-written line's quantity
alone — provably different from snapshot minus the lines' summed quantities
whenever there are at least two positive-quantity lines whose sum fits the
snapshot. -/
theorem checkout_duplicate_lines_last_write (s : Store) (pd : PaymentDetails)
    (sd : ShipmentDetails) (now : String) (uid : String) (user : User)
    (r : CheckoutResult)
    (hu : s.loggedInUser = some uid) (hpt : pd.type ≠ none) (hst : sd.type ≠ none)
    (ha : getAccount s uid = some user) (hc : (getCart s user.id).items ≠ [])
    (hfit : ∀ item ∈ (getCart s user.id).items,
      item.quantity ≤ s.catalogue.getItemQuantity item.product)
    (hres : ∀ item ∈ (getCart s user.id).items,
      (productGet s item.product.id).isSome = true)
    (h : checkout s pd sd now = r) (pid : String) (q : Nat)
    (hlast : lastQtyFor (getCart s user.id).items pid = some q) :
    (∃ o, r.result = Except.ok o) ∧
    stockLookup r.store.catalogue.stock pid = stockLookup s.catalogue.stock pid - q ∧
    (2 ≤ ((getCart s user.id).items.filter (fun it => it.product.id == pid)).length →
      (∀ x ∈ ((getCart s user.id).items.filter
          (fun it => it.product.id == pid)).map (fun it => it.quantity), 0 < x) →
      (((getCart s user.id).items.filter
          (fun it => it.product.id == pid)).map (fun it => it.quantity)).sum
        ≤ stockLookup s.catalogue.stock pid →
      stockLookup r.store.catalogue.stock pid
        ≠ stockLookup s.catalogue.stock pid
          - (((getCart s user.id).items.filter
              (fun it => it.product.id == pid)).map (fun it => it.quantity)).sum) := by
  obtain ⟨o, hcheckout⟩ :=
    checkout_ok_of_resolvable s pd sd now uid user hu hpt hst ha hc hfit hres
  rw [h] at hcheckout
  have hstock : stockLookup r.store.catalogue.stock pid
      = stockLookup s.catalogue.stock pid - q := by
    rw [hcheckout]
    show stockLookup
        (applyStockUpdates s.catalogue s.catalogue (getCart s user.id).items).stock pid = _
    exact applyStockUpdates_stock_last s.catalogue _ pid q hlast s.catalogue
  refine ⟨⟨o, by rw [hcheckout]⟩, hstock, ?_⟩
  intro hlen hpos hsum
  have hmem := lastQtyFor_mem _ pid q hlast
  have hlenq : 2 ≤ (((getCart s user.id).items.filter
      (fun it => it.product.id == pid)).map (fun it => it.quantity)).length := by
    rw [List.length_map]
    exact hlen
  have hlt := mem_lt_sum _ q hmem hlenq hpos
  rw [hstock]
  omega

/-- Witness for C4: two lines of quantities 3 and 4 for one product against
stock 5 individually fit, jointly exceed it, and checkout still succeeds with
final stock 5 minus 4. -/
theorem checkout_duplicate_lines_last_write_witness :
    dupStore2.loggedInUser = some "u1" ∧ cardDetails.type ≠ none ∧
    pickupDetails.type ≠ none ∧ getAccount dupStore2 "u1" = some userU ∧
    (getCart dupStore2 userU.id).items ≠ [] ∧
    (∀ item ∈ (getCart dupStore2 userU.id).items,
      item.quantity ≤ dupStore2.catalogue.getItemQuantity item.product) ∧
    (∀ item ∈ (getCart dupStore2 userU.id).items,
      (productGet dupStore2 item.product.id).isSome = true) ∧
    lastQtyFor (getCart dupStore2 userU.id).items "prodA" = some 4 ∧
    ((∃ o, (checkout dupStore2 cardDetails pickupDetails "T0").result = Except.ok o) ∧
     stockLookup (checkout dupStore2 cardDetails pickupDetails "T0").store.catalogue.stock
         "prodA"
       = stockLookup dupStore2.catalogue.stock "prodA" - 4 ∧
     (2 ≤ ((getCart dupStore2 userU.id).items.filter
         (fun it => it.product.id == "prodA")).length →
       (∀ x ∈ ((getCart dupStore2 userU.id).items.filter
           (fun it => it.product.id == "prodA")).map (fun it => it.quantity), 0 < x) →
       (((getCart dupStore2 userU.id).items.filter
           (fun it => it.product.id == "prodA")).map (fun it => it.quantity)).sum
         ≤ stockLookup dupStore2.catalogue.stock "prodA" →
       stockLookup (checkout dupStore2 cardDetails pickupDetails "T0").store.catalogue.stock
           "prodA"
         ≠ stockLookup dupStore2.catalogue.stock "prodA"
           - (((getCart dupStore2 userU.id).items.filter
               (fun it => it.product.id == "prodA")).map (fun it => it.quantity)).sum)) :=
  ⟨rfl, by decide, by decide, by decide, by decide, by decide, by decide, by decide,
    checkout_duplicate_lines_last_write dupStore2 cardDetails pickupDetails "T0" "u1" userU
      (checkout dupStore2 cardDetails pickupDetails "T0")
      rfl (by decide) (by decide) (by decide) (by decide) (by decide) (by decide) rfl
      "prodA" 4 (by decide)⟩

/-- C10: when every precondition passes but some cart product id no longer
resolves in the product repository, hydration of the just-persisted order
fails: checkout returns the ProductNotFound error with shipment, payment and
order already persisted, the catalogue untouched, the carts unchanged, and
exactly the three persistence events recorded — no stock decrement and no
cart clearing. -/
theorem checkout_hydration_failure_partial_persist (s : Store) (pd : PaymentDetails)
    (sd : ShipmentDetails) (now : String) (uid : String) (user : User)
    (r : CheckoutResult)
    (hu : s.loggedInUser = some uid) (hpt : pd.type ≠ none) (hst : sd.type ≠ none)
    (ha : getAccount s uid = some user) (hc : (getCart s user.id).items ≠ [])
    (hfit : ∀ item ∈ (getCart s user.id).items,
      item.quantity ≤ s.catalogue.getItemQuantity item.product)
    (hmiss : ∃ item ∈ (getCart s user.id).items, productGet s item.product.id = none)
    (h : checkout s pd sd now = r) :
    (∃ pid, r.result = Except.error (.productNotFound pid) ∧ productGet s pid = none) ∧
    r.store.shipments.length = s.shipments.length + 1 ∧
    r.store.payments.length = s.payments.length + 1 ∧
    r.store.orders.length = s.orders.length + 1 ∧
    r.store.catalogue = s.catalogue ∧
    r.store.carts = s.carts ∧
    (∃ sid pid2 oid, r.events =
      [StoreEvent.storeShipment sid, StoreEvent.storePayment pid2,
       StoreEvent.createOrder oid]) := by
  have hg := checkout_eq_of_guards s pd sd now uid user hu hpt hst ha hc
    (fun item hm => not_lt.mpr (hfit item hm))
  rw [doCheckoutBody_eq] at hg
  have hmiss2 : ∃ it ∈ (checkoutOJ s user (getCart s user.id) now).items,
      productGet (storeAfterPersist s user (getCart s user.id) pd sd now) it.productId
        = none := by
    obtain ⟨item, hm, hnone⟩ := hmiss
    exact ⟨{ productId := item.product.id, quantity := item.quantity },
      List.mem_map_of_mem _ hm, hnone⟩
  obtain ⟨pid, hres, hnone⟩ := resolveItems_error_of_missing _ _ hmiss2
  have hparse := parseOrderJSON_error_intro _ _ _ hres
  rw [hparse] at hg
  dsimp only at hg
  rw [h] at hg
  refine ⟨⟨pid, by rw [hg], hnone⟩, ?_, ?_, ?_, ?_, ?_,
    ⟨"S" ++ toString s.nextShipmentId, "P" ++ toString s.nextPaymentId,
     "O" ++ toString s.nextOrderId, by rw [hg]; rfl⟩⟩
  · rw [hg]
    show (s.shipments ++ [storedShip s user sd]).length = s.shipments.length + 1
    simp
  · rw [hg]
    show (s.payments ++ [storedPay s user (getCart s user.id) pd sd now]).length
      = s.payments.length + 1
    simp
  · rw [hg]
    show (s.orders ++ [checkoutOJ s user (getCart s user.id) now]).length
      = s.orders.length + 1
    simp
  · rw [hg]
    rfl
  · rw [hg]
    rfl

/-- Witness for C10 at a store whose cart holds a product missing from the
product repository. -/
theorem checkout_hydration_failure_witness :
    ghostStore.loggedInUser = some "u1" ∧ cardDetails.type ≠ none ∧
    pickupDetails.type ≠ none ∧ getAccount ghostStore "u1" = some userU ∧
    (getCart ghostStore userU.id).items ≠ [] ∧
    (∀ item ∈ (getCart ghostStore userU.id).items,
      item.quantity ≤ ghostStore.catalogue.getItemQuantity item.product) ∧
    (∃ item ∈ (getCart ghostStore userU.id).items,
      productGet ghostStore item.product.id = none) ∧
    ((∃ pid, (checkout ghostStore cardDetails pickupDetails "T0").result
        = Except.error (.productNotFound pid) ∧ productGet ghostStore pid = none) ∧
     (checkout ghostStore cardDetails pickupDetails "T0").store.shipments.length
       = ghostStore.shipments.length + 1 ∧
     (checkout ghostStore cardDetails pickupDetails "T0").store.payments.length
       = ghostStore.payments.length + 1 ∧
     (checkout ghostStore cardDetails pickupDetails "T0").store.orders.length
       = ghostStore.orders.length + 1 ∧
     (checkout ghostStore cardDetails pickupDetails "T0").store.catalogue
       = ghostStore.catalogue ∧
     (checkout ghostStore cardDetails pickupDetails "T0").store.carts = ghostStore.carts ∧
     (∃ sid pid2 oid, (checkout ghostStore cardDetails pickupDetails "T0").events =
       [StoreEvent.storeShipment sid, StoreEvent.storePayment pid2,
        StoreEvent.createOrder oid])) :=
  ⟨rfl, by decide, by decide, by decide, by decide, by decide, by decide,
    checkout_hydration_failure_partial_persist ghostStore cardDetails pickupDetails "T0"
      "u1" userU (checkout ghostStore cardDetails pickupDetails "T0")
      rfl (by decide) (by decide) (by decide) (by decide) (by decide) (by decide) rfl⟩
